import Mathlib

/-!
Shallow embedding of the playback layer of vi-music (`src/src-tauri/src/main.rs`).

Modelling conventions:
* `Instant` timestamps and `u64` second counts become `Nat`; `Instant`
  subtraction (`duration_since` / `elapsed`, both saturating) becomes
  truncated `Nat` subtraction, with the current wall-clock instant passed
  explicitly as a `now : Nat` argument.
* `f32` volume / speed values become `ℚ`.  The player never performs
  floating-point arithmetic on them: `set_volume` / `set_speed` only apply
  `clamp`, which is purely order-theoretic, so rationals represent every
  finite `f32` value exactly.
* `u64` / `i64` casts in `seek_relative` are modelled explicitly:
  `u64_to_i64` is the wrapping `as i64` cast, `i64_to_u64` the wrapping
  `as u64` cast, and `i64_wrap` the (release-mode) wrapping `i64` addition.
* File-system and audio-device effects are oracles: `probe` stands for
  `get_audio_duration` (duration probing of a path) and `playable` for
  success of the engine's `play_file` (open + decode + sink creation).
* The engine thread runs asynchronously; it only ever writes the shared
  `PlaybackState` (`playback` field below), never the session mutexes
  (`playlist`, `current_index`, `current_track`, `current_duration`,
  `volume`, `is_playing`, `is_paused`).  Caller-facing commands are modelled
  as functions returning the result, the new session state, and the list of
  `AudioCommand`s sent to the engine queue.
* Rust `Result<T, String>` becomes `Except String T`; a Rust panic
  (out-of-bounds `Vec` indexing in `prev_track`) becomes an outer `Option`
  with `none` for the panic.
-/

namespace ViMusic

/-- `u64::MAX`. -/
def U64_MAX : Nat := 2 ^ 64 - 1

/-- The Rust `as i64` cast of a `u64` value (two's-complement wrap). -/
def u64_to_i64 (n : Nat) : Int :=
  if n < 2 ^ 63 then (n : Int) else (n : Int) - 2 ^ 64

/-- The Rust `as u64` cast of an `i64` value (two's-complement wrap). -/
def i64_to_u64 (z : Int) : Nat :=
  (z % 2 ^ 64).toNat

/-- Wrapping of an integer into the `i64` range, the release-mode semantics
of `i64` addition overflow. -/
def i64_wrap (z : Int) : Int :=
  (z + 2 ^ 63) % 2 ^ 64 - 2 ^ 63

/-- Rust `clamp(lo, hi)` on a non-NaN float, modelled on `ℚ`. -/
def clampQ (x lo hi : ℚ) : ℚ := min (max x lo) hi

/-- The shared playback state owned by the engine thread
(`struct PlaybackState`, main.rs lines 83-92). -/
structure PlaybackState where
  start_time : Option Nat
  start_position : Nat
  is_paused : Bool
  pause_time : Option Nat
  current_path : Option String
  duration : Option Nat
  is_finished : Bool
  speed : ℚ
deriving DecidableEq, Repr

/-- `PlaybackState::new` (main.rs lines 95-106). -/
def PlaybackState.new : PlaybackState where
  start_time := none
  start_position := 0
  is_paused := false
  pause_time := none
  current_path := none
  duration := none
  is_finished := false
  speed := 1

/-- `PlaybackState::get_elapsed` (main.rs lines 108-119): with a start
instant, when paused with a recorded pause instant the elapsed time is
`start_position + (pause - start)`; otherwise it is
`start_position + (now - start)`; with no start instant it is `0`. -/
def PlaybackState.get_elapsed (s : PlaybackState) (now : Nat) : Nat :=
  match s.start_time with
  | some start =>
    if s.is_paused then
      match s.pause_time with
      | some pause => s.start_position + (pause - start)
      | none => s.start_position + (now - start)
    else
      s.start_position + (now - start)
  | none => 0

/-- `enum AudioCommand` (main.rs lines 71-81). -/
inductive AudioCommand where
  | Play (path : String) (volume : ℚ) (skip_secs : Nat)
  | Pause
  | Resume
  | Stop
  | SetVolume (v : ℚ)
  | Seek (position : Nat)
  | SetSpeed (s : ℚ)
  | SetDevice (name : String)
deriving DecidableEq, Repr

/-- The engine thread's handler of `AudioCommand::Play` (main.rs lines
326-359), restricted to its effect on the shared `PlaybackState`.
`playable path` is the success of `play_file` (open, decode and sink
creation, including the retry after recreating the output stream); on
success the clock is reset and the path recorded, on failure the shared
state is left untouched (the sink-volume argument never reaches
`PlaybackState`). -/
def enginePlay (playable : String → Bool) (now : Nat) (path : String)
    (skip_secs : Nat) (ps : PlaybackState) : PlaybackState :=
  if playable path then
    { ps with
      start_time := some now
      start_position := skip_secs
      is_paused := false
      pause_time := none
      current_path := some path
      is_finished := false }
  else
    ps

/-- `struct AppState` (main.rs lines 548-558): the session mutexes plus the
shared `PlaybackState` reachable through `player.playback_state`
(`media_controls` carries no playback semantics and is omitted). -/
structure AppState where
  playback : PlaybackState
  playlist : List String
  current_index : Nat
  current_track : Option String
  current_duration : Option Nat
  volume : ℚ
  is_playing : Bool
  is_paused : Bool
deriving DecidableEq, Repr

/-- `struct TrackInfo` (main.rs lines 605-611). -/
structure TrackInfo where
  path : String
  name : String
  index : Nat
  duration : Option Nat
deriving DecidableEq, Repr

/-- `struct PlayerStatus` (main.rs lines 649-661). -/
structure PlayerStatus where
  is_playing : Bool
  is_paused : Bool
  is_finished : Bool
  current_track : Option String
  current_index : Nat
  volume : ℚ
  speed : ℚ
  playlist_length : Nat
  elapsed : Nat
  duration : Option Nat
deriving DecidableEq, Repr

/-- Splitting a character list on `/` into path components. -/
def splitComponents : List Char → List (List Char)
  | [] => [[]]
  | c :: rest =>
    let r := splitComponents rest
    if c = '/' then [] :: r
    else (c :: r.headI) :: r.tail

/-- `PathBuf::file_name().unwrap_or_default()` as used on track paths: the
last nonempty `/`-separated component, `""` when there is none (the `..` /
`.` special cases of Rust paths do not arise for audio-file paths). -/
def fileName (path : String) : String :=
  String.mk ((((splitComponents path.data).filter (fun c => c ≠ [])).getLast?).getD [])

/-- `play_track` (main.rs lines 805-843).  Returns the command result, the
session state after the call, and the commands sent to the engine queue.
`probe` is `get_audio_duration`. -/
def play_track (probe : String → Option Nat) (index : Nat)
    (skip_secs : Option Nat) (s : AppState) :
    (Except String TrackInfo) × AppState × List AudioCommand :=
  if index ≥ s.playlist.length then
    (Except.error "Invalid track index", s, [])
  else
    let path := s.playlist.getD index ""
    let duration := probe path
    let skip := skip_secs.getD 0
    let name := fileName path
    (Except.ok { path := path, name := name, index := index, duration := duration },
      { s with
        current_duration := duration
        current_index := index
        is_playing := true
        is_paused := false
        current_track := some name },
      [AudioCommand.Play path s.volume skip])

/-- `toggle_pause` (main.rs lines 846-866). -/
def toggle_pause (s : AppState) :
    (Except String Bool) × AppState × List AudioCommand :=
  if !s.is_playing then
    (Except.error "No track is playing", s, [])
  else if s.is_paused then
    (Except.ok false, { s with is_paused := false }, [AudioCommand.Resume])
  else
    (Except.ok true, { s with is_paused := true }, [AudioCommand.Pause])

/-- `stop` (main.rs lines 869-876). -/
def stop (s : AppState) :
    (Except String Unit) × AppState × List AudioCommand :=
  (Except.ok (),
    { s with is_playing := false, is_paused := false, current_track := none },
    [AudioCommand.Stop])

/-- `next_track` (main.rs lines 879-919). -/
def next_track (probe : String → Option Nat) (s : AppState) :
    (Except String TrackInfo) × AppState × List AudioCommand :=
  let playlist_len := s.playlist.length
  if playlist_len = 0 then
    (Except.error "Playlist is empty", s, [])
  else
    let next_index := (s.current_index + 1) % playlist_len
    let path := s.playlist.getD next_index ""
    let duration := probe path
    let name := fileName path
    (Except.ok { path := path, name := name, index := next_index, duration := duration },
      { s with
        current_duration := duration
        current_index := next_index
        is_playing := true
        is_paused := false
        current_track := some name },
      [AudioCommand.Play path s.volume 0])

/-- `prev_track` (main.rs lines 922-962).  The outer `Option` models the
Rust panic of `playlist[prev_index]`: `none` when `prev_index` is out of
bounds (which `current == 0` never produces, but `current > len` can). -/
def prev_track (probe : String → Option Nat) (s : AppState) :
    Option ((Except String TrackInfo) × AppState × List AudioCommand) :=
  let playlist_len := s.playlist.length
  if playlist_len = 0 then
    some (Except.error "Playlist is empty", s, [])
  else
    let prev_index :=
      if s.current_index = 0 then playlist_len - 1 else s.current_index - 1
    if prev_index < playlist_len then
      let path := s.playlist.getD prev_index ""
      let duration := probe path
      let name := fileName path
      some (Except.ok { path := path, name := name, index := prev_index, duration := duration },
        { s with
          current_duration := duration
          current_index := prev_index
          is_playing := true
          is_paused := false
          current_track := some name },
        [AudioCommand.Play path s.volume 0])
    else
      none

/-- `set_volume` (main.rs lines 965-970). -/
def set_volume (volume : ℚ) (s : AppState) :
    (Except String ℚ) × AppState × List AudioCommand :=
  let clamped := clampQ volume 0 1
  (Except.ok clamped, { s with volume := clamped }, [AudioCommand.SetVolume clamped])

/-- `set_speed` (main.rs lines 973-977): clamps, sends to the engine, does
not touch any session mutex. -/
def set_speed (speed : ℚ) (s : AppState) :
    (Except String ℚ) × AppState × List AudioCommand :=
  let clamped := clampQ speed (1/4) 3
  (Except.ok clamped, s, [AudioCommand.SetSpeed clamped])

/-- `get_status` (main.rs lines 980-993). -/
def get_status (s : AppState) (now : Nat) : PlayerStatus where
  is_playing := s.is_playing
  is_paused := s.is_paused
  is_finished := s.playback.is_finished
  current_track := s.current_track
  current_index := s.current_index
  volume := s.volume
  speed := s.playback.speed
  playlist_length := s.playlist.length
  elapsed := s.playback.get_elapsed now
  duration := s.current_duration

/-- `seek` (main.rs lines 996-1008). -/
def seek (position : Nat) (s : AppState) :
    (Except String Nat) × AppState × List AudioCommand :=
  if !s.is_playing then
    (Except.error "No track is playing", s, [])
  else
    let max_pos := s.current_duration.getD U64_MAX
    let clamped := min position max_pos
    (Except.ok clamped, s, [AudioCommand.Seek clamped])

/-- `seek_relative` (main.rs lines 1011-1025), with the `as i64` / `as u64`
casts and the wrapping `i64` addition modelled explicitly. -/
def seek_relative (delta : Int) (now : Nat) (s : AppState) :
    (Except String Nat) × AppState × List AudioCommand :=
  if !s.is_playing then
    (Except.error "No track is playing", s, [])
  else
    let current := u64_to_i64 (s.playback.get_elapsed now)
    let max_pos := u64_to_i64 (s.current_duration.getD U64_MAX)
    let new_pos := i64_to_u64 (min (max (i64_wrap (current + delta)) 0) max_pos)
    (Except.ok new_pos, s, [AudioCommand.Seek new_pos])

/-- `set_playlist` (main.rs lines 1352-1356): replaces the playlist and
touches nothing else — in particular `current_index` is not reset. -/
def set_playlist (paths : List String) (s : AppState) : AppState :=
  { s with playlist := paths }

/-- `load_folder` (main.rs lines 672-707), restricted to its session-state
effect: the sorted list of enumerated audio-file paths (file-system
enumeration is an external collaborator, so the final `tracks` list is the
argument) replaces the playlist and the index is reset to `0`. -/
def load_folder (tracks : List String) (s : AppState) : AppState :=
  { s with playlist := tracks, current_index := 0 }

/-- `play_track` followed by the engine thread processing the emitted
commands (a single `Play` on success, nothing on a validation error):
the end-to-end state a later `get_status` observes once the queue has
drained. -/
def play_then_engine (playable : String → Bool) (probe : String → Option Nat)
    (index : Nat) (skip_secs : Option Nat) (now : Nat) (s : AppState) :
    (Except String TrackInfo) × AppState :=
  match play_track probe index skip_secs s with
  | (res, s1, cmds) =>
    let ps := cmds.foldl
      (fun ps c =>
        match c with
        | AudioCommand.Play path _ skip => enginePlay playable now path skip ps
        | _ => ps)
      s1.playback
    (res, { s1 with playback := ps })

/-- The spec's session-state invariant: the current index lies in
`[0, playlist length)` whenever the playlist is nonempty. -/
def indexInvariant (s : AppState) : Prop :=
  s.playlist ≠ [] → s.current_index < s.playlist.length

instance (s : AppState) : Decidable (indexInvariant s) := by
  unfold indexInvariant; infer_instance

/-- The index carried by a successful transport result. -/
def resultIndex (e : Except String TrackInfo) : Option Nat :=
  match e with
  | Except.ok info => some info.index
  | Except.error _ => none

/-- `AppState::new` (main.rs lines 561-573). -/
def AppState.new : AppState where
  playback := PlaybackState.new
  playlist := []
  current_index := 0
  current_track := none
  current_duration := none
  volume := 1
  is_playing := false
  is_paused := false

/-- The public session-mutating operations of the command surface, with the
oracles each one consumes baked into the constructor. -/
inductive SessionOp where
  | opPlay (probe : String → Option Nat) (index : Nat) (skip : Option Nat)
  | opTogglePause
  | opStop
  | opNext (probe : String → Option Nat)
  | opPrev (probe : String → Option Nat)
  | opSetVolume (x : ℚ)
  | opSetSpeed (x : ℚ)
  | opSeek (p : Nat)
  | opSeekRel (delta : Int) (now : Nat)
  | opSetPlaylist (paths : List String)
  | opLoadFolder (tracks : List String)

/-- Whether an operation is a `set_volume` call. -/
def SessionOp.isSetVolume : SessionOp → Bool
  | SessionOp.opSetVolume _ => true
  | _ => false

/-- The session-state effect of one operation (`none` = Rust panic).  The
engine thread never writes any session mutex — it only writes the shared
`PlaybackState` — so the session fields evolve exactly by these functions. -/
def applyOp : SessionOp → AppState → Option AppState
  | SessionOp.opPlay probe index skip, s => some (play_track probe index skip s).2.1
  | SessionOp.opTogglePause, s => some (toggle_pause s).2.1
  | SessionOp.opStop, s => some (stop s).2.1
  | SessionOp.opNext probe, s => some (next_track probe s).2.1
  | SessionOp.opPrev probe, s => (prev_track probe s).map (fun r => r.2.1)
  | SessionOp.opSetVolume x, s => some (set_volume x s).2.1
  | SessionOp.opSetSpeed x, s => some (set_speed x s).2.1
  | SessionOp.opSeek p, s => some (seek p s).2.1
  | SessionOp.opSeekRel delta now, s => some (seek_relative delta now s).2.1
  | SessionOp.opSetPlaylist paths, s => some (set_playlist paths s)
  | SessionOp.opLoadFolder tracks, s => some (load_folder tracks s)

/-- Sequential application of operations, halting on a panic. -/
def applyOps : List SessionOp → AppState → Option AppState
  | [], s => some s
  | op :: ops, s =>
    match applyOp op s with
    | some t => applyOps ops t
    | none => none

/-- A concrete session state: track 0 of a two-track playlist is playing
with a known 30s duration. -/
def playingTrack0 : AppState where
  playback := { PlaybackState.new with start_time := some 0, current_path := some "a.mp3" }
  playlist := ["a.mp3", "b.mp3"]
  current_index := 0
  current_track := some "a.mp3"
  current_duration := some 30
  volume := 1
  is_playing := true
  is_paused := false

/-- A concrete session state matching the spec's `seekRelative` example:
elapsed 10s into a track of known duration 100s. -/
def playingAt10of100 : AppState where
  playback := { PlaybackState.new with start_time := some 0, start_position := 10 }
  playlist := ["a.mp3"]
  current_index := 0
  current_track := some "a.mp3"
  current_duration := some 100
  volume := 1
  is_playing := true
  is_paused := false

/-- A concrete playing session state whose track duration is unknown. -/
def playingUnknownDuration : AppState where
  playback := { PlaybackState.new with start_time := some 0, start_position := 10 }
  playlist := ["a.mp3"]
  current_index := 0
  current_track := some "a.mp3"
  current_duration := none
  volume := 1
  is_playing := true
  is_paused := false

/-- A running clock: started at instant 3, base position 0. -/
def runningClock : PlaybackState :=
  { PlaybackState.new with start_time := some 3 }

/-- A paused clock: started at instant 3, paused at instant 8. -/
def pausedClock : PlaybackState :=
  { PlaybackState.new with start_time := some 3, is_paused := true, pause_time := some 8 }

section Theorems

/-- Helper: the `prev_track` branch arithmetic equals the spec's
`(i - 1 + N) mod N` (written without truncation as `(i + N - 1) % N`)
whenever `i < N` and `N ≠ 0`. -/
theorem prev_index_eq_mod (i N : Nat) (hN : N ≠ 0) (hi : i < N) :
    (if i = 0 then N - 1 else i - 1) = (i + N - 1) % N := by
  rcases Nat.eq_zero_or_pos i with h0 | hpos
  · subst h0
    simp [Nat.mod_eq_of_lt (Nat.sub_lt (Nat.pos_of_ne_zero hN) one_pos)]
  · have h1 : i ≠ 0 := Nat.pos_iff_ne_zero.mp hpos
    have h2 : i + N - 1 = (i - 1) + N := by omega
    rw [if_neg h1, h2, Nat.add_mod_right, Nat.mod_eq_of_lt (by omega)]

/-- C7: `PlaybackState::get_elapsed` — with a reference instant and not
paused, elapsed is `basePosition + (now - reference)`; when paused with a
recorded pause instant, elapsed is frozen at
`basePosition + (pauseInstant - reference)` independently of `now`; with no
reference instant, elapsed is `0`. -/
theorem get_elapsed_spec (s : PlaybackState) (now : Nat) :
    (∀ start, s.start_time = some start → s.is_paused = false →
      s.get_elapsed now = s.start_position + (now - start)) ∧
    (∀ start pause, s.start_time = some start → s.is_paused = true →
        s.pause_time = some pause →
      ∀ t, s.get_elapsed t = s.start_position + (pause - start)) ∧
    (s.start_time = none → s.get_elapsed now = 0) := by
  refine ⟨?_, ?_, ?_⟩
  · intro start hst hp
    simp [PlaybackState.get_elapsed, hst, hp]
  · intro start pause hst hp hpt t
    simp [PlaybackState.get_elapsed, hst, hp, hpt]
  · intro hst
    simp [PlaybackState.get_elapsed, hst]

/-- Witness for `get_elapsed_spec` at concrete clock states. -/
theorem get_elapsed_spec_witness :
    runningClock.get_elapsed 10 = 7 ∧
    pausedClock.get_elapsed 100 = 5 ∧
    PlaybackState.new.get_elapsed 42 = 0 := by
  refine ⟨?_, ?_, ?_⟩
  · simpa [runningClock, PlaybackState.new] using
      (get_elapsed_spec runningClock 10).1 3 rfl rfl
  · simpa [pausedClock, PlaybackState.new] using
      (get_elapsed_spec pausedClock 0).2.1 3 8 rfl rfl rfl 100
  · simpa using (get_elapsed_spec PlaybackState.new 42).2.2 rfl

/-- C9: with no track loaded (`is_playing = false`), `toggle_pause`,
`seek` and `seek_relative` each fail with the `NothingPlaying` error
("No track is playing"), send no command to the engine, return the state
unchanged, and leave the full `get_status` snapshot unchanged. -/
theorem nothing_playing_rejections (s : AppState) (p : Nat) (delta : Int)
    (now t : Nat) (h : s.is_playing = false) :
    toggle_pause s = (Except.error "No track is playing", s, []) ∧
    seek p s = (Except.error "No track is playing", s, []) ∧
    seek_relative delta now s = (Except.error "No track is playing", s, []) ∧
    get_status (toggle_pause s).2.1 t = get_status s t ∧
    get_status (seek p s).2.1 t = get_status s t ∧
    get_status (seek_relative delta now s).2.1 t = get_status s t := by
  simp [toggle_pause, seek, seek_relative, h]

/-- Witness for `nothing_playing_rejections` at the initial state. -/
theorem nothing_playing_rejections_witness :
    toggle_pause AppState.new = (Except.error "No track is playing", AppState.new, []) ∧
    seek 17 AppState.new = (Except.error "No track is playing", AppState.new, []) ∧
    seek_relative (-4) 9 AppState.new =
      (Except.error "No track is playing", AppState.new, []) := by
  have h := nothing_playing_rejections AppState.new 17 (-4) 9 0 rfl
  exact ⟨h.1, h.2.1, h.2.2.1⟩

/-- C10: `play_track` with an index at or beyond the playlist length fails
with the `InvalidIndex` error ("Invalid track index"), sends no command,
returns the state unchanged, and leaves the `get_status` snapshot (in
particular `current_index`) unchanged. -/
theorem play_track_invalid_index (probe : String → Option Nat) (index : Nat)
    (skip : Option Nat) (s : AppState) (t : Nat)
    (h : s.playlist.length ≤ index) :
    play_track probe index skip s = (Except.error "Invalid track index", s, []) ∧
    get_status (play_track probe index skip s).2.1 t = get_status s t ∧
    (play_track probe index skip s).2.1.current_index = s.current_index := by
  simp [play_track, h]

/-- Witness for `play_track_invalid_index`: index 2 in a 2-track playlist. -/
theorem play_track_invalid_index_witness :
    play_track (fun _ => none) 2 none playingTrack0 =
      (Except.error "Invalid track index", playingTrack0, []) ∧
    (play_track (fun _ => none) 2 none playingTrack0).2.1.current_index = 0 := by
  have h := play_track_invalid_index (fun _ => none) 2 none playingTrack0 0
    (by decide)
  exact ⟨h.1, h.2.2⟩

/-- C8: `seek(p)` fails with the `NothingPlaying` error when idle; when
playing with known duration `D` it clamps `p` to `[0, D]` (for a `u64`
argument this is `min p D`), sends exactly `Seek` of the clamped value to
the engine and returns it; when the duration is unknown it leaves `p`
unclamped above (the ceiling is `u64::MAX`, never reached by a `u64`
argument). -/
theorem seek_clamps (s : AppState) (p D : Nat) (hp : p ≤ U64_MAX) :
    (s.is_playing = false → seek p s = (Except.error "No track is playing", s, [])) ∧
    (s.is_playing = true → s.current_duration = some D →
      seek p s = (Except.ok (min p D), s, [AudioCommand.Seek (min p D)])) ∧
    (s.is_playing = true → s.current_duration = none →
      seek p s = (Except.ok p, s, [AudioCommand.Seek p])) := by
  refine ⟨?_, ?_, ?_⟩
  · intro h
    simp [seek, h]
  · intro h hD
    simp [seek, h, hD]
  · intro h hD
    simp [seek, h, hD, Nat.min_eq_left hp]

/-- Witness for `seek_clamps`: seeking to 40 with duration 30 clamps to 30;
seeking to 40 with unknown duration stays 40. -/
theorem seek_clamps_witness :
    seek 40 playingTrack0 =
      (Except.ok 30, playingTrack0, [AudioCommand.Seek 30]) ∧
    seek 40 playingUnknownDuration =
      (Except.ok 40, playingUnknownDuration, [AudioCommand.Seek 40]) := by
  constructor
  · have h := (seek_clamps playingTrack0 40 30 (by decide)).2.1 rfl rfl
    simpa using h
  · exact (seek_clamps playingUnknownDuration 40 0 (by decide)).2.2 rfl rfl

/-- C2: on a playlist of length `N ≠ 0` with (in-bounds) current index `i`,
`next_track` sets and returns index `(i + 1) % N` and `prev_track` sets and
returns index `(i - 1 + N) % N` (written `(i + N - 1) % N` to avoid `Nat`
truncation); on the empty playlist both fail with the `EmptyPlaylist` error
("Playlist is empty") and change nothing. -/
theorem next_prev_cyclic (probe : String → Option Nat) (s : AppState) :
    (s.playlist.length ≠ 0 → s.current_index < s.playlist.length →
      (next_track probe s).2.1.current_index =
          (s.current_index + 1) % s.playlist.length ∧
      resultIndex (next_track probe s).1 =
          some ((s.current_index + 1) % s.playlist.length) ∧
      Option.map (fun r => r.2.1.current_index) (prev_track probe s) =
          some ((s.current_index + s.playlist.length - 1) % s.playlist.length) ∧
      Option.map (fun r => resultIndex r.1) (prev_track probe s) =
          some (some ((s.current_index + s.playlist.length - 1) % s.playlist.length))) ∧
    (s.playlist.length = 0 →
      next_track probe s = (Except.error "Playlist is empty", s, []) ∧
      prev_track probe s = some (Except.error "Playlist is empty", s, [])) := by
  constructor
  · intro hN hi
    have hprev : (if s.current_index = 0 then s.playlist.length - 1
        else s.current_index - 1) =
        (s.current_index + s.playlist.length - 1) % s.playlist.length :=
      prev_index_eq_mod s.current_index s.playlist.length hN hi
    have hlt : (if s.current_index = 0 then s.playlist.length - 1
        else s.current_index - 1) < s.playlist.length := by
      split <;> omega
    refine ⟨?_, ?_, ?_, ?_⟩
    · simp [next_track, hN]
    · simp [next_track, hN, resultIndex]
    · rw [prev_track]
      simp only [hN, if_neg, hlt, if_pos, if_false]
      simp [hprev]
    · rw [prev_track]
      simp only [hN, if_neg, hlt, if_pos, if_false]
      simp [hprev, resultIndex]
  · intro hN
    constructor
    · simp [next_track, hN]
    · simp [prev_track, hN]

/-- Witness for `next_prev_cyclic`: a 3-track playlist at index 0 — next
goes to 1, previous wraps to 2; and the empty playlist rejects both. -/
theorem next_prev_cyclic_witness :
    (next_track (fun _ => none) (load_folder ["a", "b", "c"] AppState.new)).2.1.current_index = 1 ∧
    Option.map (fun r => r.2.1.current_index)
      (prev_track (fun _ => none) (load_folder ["a", "b", "c"] AppState.new)) = some 2 ∧
    next_track (fun _ => none) AppState.new =
      (Except.error "Playlist is empty", AppState.new, []) ∧
    prev_track (fun _ => none) AppState.new =
      some (Except.error "Playlist is empty", AppState.new, []) := by
  have h1 := (next_prev_cyclic (fun _ => none)
    (load_folder ["a", "b", "c"] AppState.new)).1 (by decide) (by decide)
  have h2 := (next_prev_cyclic (fun _ => none) AppState.new).2 (by decide)
  refine ⟨?_, ?_, h2.1, h2.2⟩
  · simpa using h1.1
  · simpa using h1.2.2.1

/-- Helper: the `as i64` cast is the identity below `2^63`. -/
theorem u64_to_i64_small (n : Nat) (h : n < 2 ^ 63) : u64_to_i64 n = (n : Int) := by
  unfold u64_to_i64
  rw [if_pos h]

/-- Helper: wrapping `i64` addition is the identity inside the `i64` range. -/
theorem i64_wrap_eq_self (z : Int) (hlo : -(2 ^ 63) ≤ z) (hhi : z < 2 ^ 63) :
    i64_wrap z = z := by
  unfold i64_wrap
  rw [Int.emod_eq_of_lt (by omega) (by omega)]
  omega

/-- Helper: the `as u64` cast is `toNat` on nonnegative in-range values. -/
theorem i64_to_u64_of_nonneg (z : Int) (hlo : 0 ≤ z) (hhi : z < 2 ^ 64) :
    i64_to_u64 z = z.toNat := by
  unfold i64_to_u64
  rw [Int.emod_eq_of_lt hlo hhi]

/-- C3: for a playing state with elapsed position `E` and known duration
`D` (both within the `i64` range, with `E + delta` not overflowing `i64`),
`seek_relative delta` computes, sends to the engine, and returns the
clamped absolute position `clamp(E + delta, 0, D)`. -/
theorem seek_relative_clamps (s : AppState) (D : Nat) (delta : Int) (now : Nat)
    (hplay : s.is_playing = true)
    (hdur : s.current_duration = some D)
    (hE : s.playback.get_elapsed now < 2 ^ 63)
    (hD : D < 2 ^ 63)
    (hlo : -(2 ^ 63) ≤ (s.playback.get_elapsed now : Int) + delta)
    (hhi : (s.playback.get_elapsed now : Int) + delta < 2 ^ 63) :
    seek_relative delta now s =
      (Except.ok (min (max ((s.playback.get_elapsed now : Int) + delta) 0) (D : Int)).toNat,
       s,
       [AudioCommand.Seek
         (min (max ((s.playback.get_elapsed now : Int) + delta) 0) (D : Int)).toNat]) := by
  unfold seek_relative
  rw [hplay, hdur]
  simp only [Bool.not_true, Option.getD_some, Bool.false_eq_true, if_false]
  rw [u64_to_i64_small _ hE, u64_to_i64_small _ hD, i64_wrap_eq_self _ hlo hhi,
    i64_to_u64_of_nonneg]
  · have h0 : (0 : Int) ≤ max ((s.playback.get_elapsed now : Int) + delta) 0 :=
      le_max_right _ _
    have hDnn : (0 : Int) ≤ (D : Int) := Int.ofNat_nonneg D
    exact le_min h0 hDnn
  · calc min (max ((s.playback.get_elapsed now : Int) + delta) 0) (D : Int)
        ≤ (D : Int) := min_le_right _ _
      _ < 2 ^ 64 := by exact_mod_cast lt_trans (by exact_mod_cast hD) (by norm_num)

/-- Witness for `seek_relative_clamps`, the spec's own examples: at elapsed
10 with duration 100, `seek_relative (-20)` yields 0 and
`seek_relative 200` yields 100. -/
theorem seek_relative_clamps_witness :
    (seek_relative (-20) 0 playingAt10of100).1 = Except.ok 0 ∧
    (seek_relative 200 0 playingAt10of100).1 = Except.ok 100 := by
  constructor
  · have h := seek_relative_clamps playingAt10of100 100 (-20) 0 rfl rfl
      (by decide) (by decide) (by decide) (by decide)
    rw [h]
    norm_num [playingAt10of100, PlaybackState.get_elapsed, PlaybackState.new]
  · have h := seek_relative_clamps playingAt10of100 100 200 0 rfl rfl
      (by decide) (by decide) (by decide) (by decide)
    rw [h]
    norm_num [playingAt10of100, PlaybackState.get_elapsed, PlaybackState.new]
    decide

/-- C4: for a playing state whose duration is unknown, `seek_relative`
always returns `u64::MAX` and sends `Seek(u64::MAX)`: the ceiling
`u64::MAX as i64` is `-1`, so the `.max(0).min(-1)` chain yields `-1`,
which casts back to `u64::MAX`. -/
theorem seek_relative_unknown_duration_umax (s : AppState) (delta : Int) (now : Nat)
    (hplay : s.is_playing = true)
    (hdur : s.current_duration = none) :
    seek_relative delta now s =
      (Except.ok U64_MAX, s, [AudioCommand.Seek U64_MAX]) := by
  unfold seek_relative
  rw [hplay, hdur]
  simp only [Bool.not_true, Option.getD_none, Bool.false_eq_true, if_false]
  have hmax : u64_to_i64 U64_MAX = -1 := by decide
  rw [hmax]
  have hmin : min (max (i64_wrap (u64_to_i64 (s.playback.get_elapsed now) + delta)) 0)
      (-1 : Int) = -1 :=
    min_eq_right (le_trans (by norm_num) (le_max_right _ _))
  rw [hmin]
  have hcast : i64_to_u64 (-1) = U64_MAX := by decide
  rw [hcast]

/-- Witness for `seek_relative_unknown_duration_umax` at a concrete playing
state with unknown duration. -/
theorem seek_relative_unknown_duration_umax_witness :
    seek_relative 5 0 playingUnknownDuration =
      (Except.ok U64_MAX, playingUnknownDuration, [AudioCommand.Seek U64_MAX]) :=
  seek_relative_unknown_duration_umax playingUnknownDuration 5 0 rfl rfl

/-- Helper: `play_track` never writes the `volume` mutex. -/
theorem play_track_volume (probe : String → Option Nat) (index : Nat)
    (skip : Option Nat) (s : AppState) :
    (play_track probe index skip s).2.1.volume = s.volume := by
  unfold play_track
  split <;> rfl

/-- Helper: `toggle_pause` never writes the `volume` mutex. -/
theorem toggle_pause_volume (s : AppState) :
    (toggle_pause s).2.1.volume = s.volume := by
  unfold toggle_pause
  split
  · rfl
  · split <;> rfl

/-- Helper: `next_track` never writes the `volume` mutex. -/
theorem next_track_volume (probe : String → Option Nat) (s : AppState) :
    (next_track probe s).2.1.volume = s.volume := by
  simp only [next_track]
  split <;> rfl

/-- Helper: `prev_track` never writes the `volume` mutex. -/
theorem prev_track_volume (probe : String → Option Nat) (s : AppState)
    (r : (Except String TrackInfo) × AppState × List AudioCommand)
    (h : prev_track probe s = some r) :
    r.2.1.volume = s.volume := by
  simp only [prev_track] at h
  split at h
  · injection h with h2
    subst h2
    rfl
  · split at h <;> split at h <;>
      first
        | (injection h with h2
           subst h2
           rfl)
        | exact Option.noConfusion h

/-- Helper: no session operation other than `set_volume` writes the
`volume` mutex (and the engine thread never writes session mutexes at
all). -/
theorem applyOp_preserves_volume (op : SessionOp) (s t : AppState)
    (hop : op.isSetVolume = false) (h : applyOp op s = some t) :
    t.volume = s.volume := by
  cases op with
  | opPlay probe index skip =>
    simp only [applyOp] at h
    injection h with h2
    subst h2
    exact play_track_volume probe index skip s
  | opTogglePause =>
    simp only [applyOp] at h
    injection h with h2
    subst h2
    exact toggle_pause_volume s
  | opStop =>
    simp only [applyOp] at h
    injection h with h2
    subst h2
    rfl
  | opNext probe =>
    simp only [applyOp] at h
    injection h with h2
    subst h2
    exact next_track_volume probe s
  | opPrev probe =>
    simp only [applyOp] at h
    rcases Option.map_eq_some'.mp h with ⟨r, hr, hrt⟩
    subst hrt
    exact prev_track_volume probe s r hr
  | opSetVolume x =>
    simp [SessionOp.isSetVolume] at hop
  | opSetSpeed x =>
    simp only [applyOp] at h
    injection h with h2
    subst h2
    rfl
  | opSeek p =>
    simp only [applyOp] at h
    injection h with h2
    subst h2
    unfold seek
    split <;> rfl
  | opSeekRel delta now =>
    simp only [applyOp] at h
    injection h with h2
    subst h2
    unfold seek_relative
    split <;> rfl
  | opSetPlaylist paths =>
    simp only [applyOp] at h
    injection h with h2
    subst h2
    rfl
  | opLoadFolder tracks =>
    simp only [applyOp] at h
    injection h with h2
    subst h2
    rfl

/-- Helper: an operation sequence free of `set_volume` calls preserves the
session `volume`. -/
theorem applyOps_preserves_volume (ops : List SessionOp) (s t : AppState)
    (hops : ∀ op ∈ ops, op.isSetVolume = false)
    (h : applyOps ops s = some t) : t.volume = s.volume := by
  induction ops generalizing s with
  | nil =>
    unfold applyOps at h
    cases h
    rfl
  | cons op rest ih =>
    unfold applyOps at h
    cases hap : applyOp op s with
    | none => rw [hap] at h; cases h
    | some u =>
      rw [hap] at h
      have h1 := applyOp_preserves_volume op s u (hops op (List.mem_cons_self op rest)) hap
      have h2 := ih u (fun o ho => hops o (List.mem_cons_of_mem op ho)) h
      rw [h2, h1]

/-- C5: `set_volume x` returns `clamp(x, 0, 1)`, and any `get_status` call
issued after it — across any sequence of further operations that contains
no volume change, and whatever the engine thread has meanwhile done to the
shared playback state — reports exactly that clamped value as `volume`. -/
theorem set_volume_clamps_and_status_reports (x : ℚ) (s s' : AppState)
    (ops : List SessionOp) (eng : PlaybackState) (now : Nat)
    (hops : ∀ op ∈ ops, op.isSetVolume = false)
    (happ : applyOps ops (set_volume x s).2.1 = some s') :
    (set_volume x s).1 = Except.ok (clampQ x 0 1) ∧
    (get_status s' now).volume = clampQ x 0 1 ∧
    (get_status { s' with playback := eng } now).volume = clampQ x 0 1 := by
  have hv := applyOps_preserves_volume ops (set_volume x s).2.1 s' hops happ
  have hset : (set_volume x s).2.1.volume = clampQ x 0 1 := rfl
  exact ⟨rfl, by rw [get_status]; rw [hv, hset], by rw [get_status]; rw [hv, hset]⟩

/-- Witness for `set_volume_clamps_and_status_reports`: `set_volume (3/2)`
clamps to 1, and after an intervening (rejected) `seek` the status still
reports volume 1. -/
theorem set_volume_clamps_and_status_reports_witness :
    (set_volume (3/2) AppState.new).1 = Except.ok 1 ∧
    (get_status ((set_volume (3/2) AppState.new).2.1) 0).volume = 1 := by
  have h := set_volume_clamps_and_status_reports (3/2) AppState.new
    ((set_volume (3/2) AppState.new).2.1) [SessionOp.opSeek 5] PlaybackState.new 0
    (by intro op hop; rcases List.mem_singleton.mp hop with rfl; rfl)
    (by rfl)
  have hc : clampQ (3/2) 0 1 = 1 := by
    norm_num [clampQ]
  exact ⟨by rw [h.1, hc], by rw [h.2.1, hc]⟩

/-- C6 (violation, evaluated at the failing input): starting from the
initial state, `load_folder` with three tracks then `play_track 2`
establishes the index invariant, but `set_playlist` with a single track
replaces the playlist WITHOUT resetting `current_index` (unlike
`load_folder` / `load_playlist`), leaving `current_index = 2 ≥ 1`; the
following `prev_track` then computes `prev_index = 1` and performs the
out-of-bounds access `playlist[1]` — a Rust panic, modelled as `none`. -/
theorem set_playlist_breaks_index_invariant :
    indexInvariant ((play_track (fun _ => none) 2 none
      (load_folder ["a.mp3", "b.mp3", "c.mp3"] AppState.new)).2.1) ∧
    ¬ indexInvariant (set_playlist ["a.mp3"]
      ((play_track (fun _ => none) 2 none
        (load_folder ["a.mp3", "b.mp3", "c.mp3"] AppState.new)).2.1)) ∧
    (prev_track (fun _ => none) (set_playlist ["a.mp3"]
      ((play_track (fun _ => none) 2 none
        (load_folder ["a.mp3", "b.mp3", "c.mp3"] AppState.new)).2.1))).isNone = true := by
  refine ⟨?_, ?_, ?_⟩ <;> decide

/-- C1 counterexample: track 0 ("a.mp3") of `playingTrack0` was the
current track; `play_track 1` is issued and the engine fails to open or
decode "b.mp3" (`playable` is constantly false).  A subsequent `status()`
shows the NEW track name "b.mp3" and NEW index 1 — not the previous track
name and index as the claim states. -/
theorem engine_play_failure_shows_new_track_cex :
    (get_status (play_then_engine (fun _ => false) (fun _ => none)
      1 none 5 playingTrack0).2 5).current_track = some "b.mp3" ∧
    (get_status (play_then_engine (fun _ => false) (fun _ => none)
      1 none 5 playingTrack0).2 5).current_index = 1 ∧
    ¬ ((get_status (play_then_engine (fun _ => false) (fun _ => none)
        1 none 5 playingTrack0).2 5).current_track = some "a.mp3" ∧
       (get_status (play_then_engine (fun _ => false) (fun _ => none)
        1 none 5 playingTrack0).2 5).current_index = 0) := by
  refine ⟨?_, ?_, ?_⟩ <;> decide

/-- C1 (amended): when the engine fails to open or decode the file during
play, the failure is swallowed at the engine: the shared playback state
(clock, current path, finished flag) does not change, so a later `status()`
still reports the previous elapsed time and finished flag; but the session
fields were already updated synchronously by `play_track` before the engine
ran, so that same `status()` shows the NEW track name, the NEW index,
`is_playing = true` and `is_paused = false`. -/
theorem engine_play_failure_preserves_playback
    (playable : String → Bool) (probe : String → Option Nat)
    (index : Nat) (skip : Option Nat) (now t : Nat) (s : AppState)
    (hidx : index < s.playlist.length)
    (hfail : playable (s.playlist.getD index "") = false) :
    (play_then_engine playable probe index skip now s).2.playback = s.playback ∧
    (get_status (play_then_engine playable probe index skip now s).2 t).elapsed =
      s.playback.get_elapsed t ∧
    (get_status (play_then_engine playable probe index skip now s).2 t).is_finished =
      s.playback.is_finished ∧
    (get_status (play_then_engine playable probe index skip now s).2 t).current_track =
      some (fileName (s.playlist.getD index "")) ∧
    (get_status (play_then_engine playable probe index skip now s).2 t).current_index =
      index ∧
    (get_status (play_then_engine playable probe index skip now s).2 t).is_playing = true ∧
    (get_status (play_then_engine playable probe index skip now s).2 t).is_paused = false := by
  have hnot : ¬ (index ≥ s.playlist.length) := not_le.mpr hidx
  simp only [play_then_engine, play_track, hnot, if_false, ite_false, List.foldl,
    enginePlay, hfail, Bool.false_eq_true, get_status, PlaybackState.get_elapsed]
  refine ⟨?_, ?_, ?_, ?_, ?_, ?_, ?_⟩ <;> trivial

/-- Witness for `engine_play_failure_preserves_playback` at the concrete
failing play of `playingTrack0`. -/
theorem engine_play_failure_preserves_playback_witness :
    (play_then_engine (fun _ => false) (fun _ => none)
      1 none 5 playingTrack0).2.playback = playingTrack0.playback ∧
    (get_status (play_then_engine (fun _ => false) (fun _ => none)
      1 none 5 playingTrack0).2 9).elapsed = playingTrack0.playback.get_elapsed 9 := by
  have h := engine_play_failure_preserves_playback (fun _ => false) (fun _ => none)
    1 none 5 9 playingTrack0 (by decide) rfl
  exact ⟨h.1, h.2.1⟩

end Theorems

end ViMusic
